import Mathlib

/-!
Verification of `src/potato.py`, a BLE cycling-power to virtual-gamepad bridge.

Shallow embedding conventions:
* Python `bytearray` entries are modelled as `Fin 256`.
* Python `int` is modelled as `ℤ`; the `float` configuration values `ftp` and
  `threshold` are modelled as `ℚ` (every value appearing in the specification
  is exactly representable, so the rational model agrees with IEEE floats on
  all comparisons performed by the program).
* The mutable attributes of the `KickrController` object form the record
  `KickrState`; each method becomes a function from the state (and the
  relevant external inputs) to the new state together with the observable
  actions it performs (gamepad operations, session events).
* The asynchronous BLE environment (scan outcome, transport connect outcome,
  subscribe outcome) is abstracted into the record `Env`; the infinite
  `while True: await asyncio.sleep(1)` loop of `run` is represented by the
  terminal `Event.keepAlive` marker in the emitted event trace.
-/

set_option maxRecDepth 8000

namespace Potato

/-- A byte of a BLE notification payload. -/
abbrev Byte := Fin 256

/-- `parse_cycling_power` (src/potato.py lines 30-40): if the packet is
shorter than 4 bytes return 0, otherwise interpret bytes 2-3 as a signed
little-endian 16-bit integer (`int.from_bytes(data[2:4], 'little', signed=True)`). -/
def parse_cycling_power (data : List Byte) : ℤ :=
  if data.length < 4 then 0
  else
    let u : ℤ := (data.getD 2 0).val + 256 * (data.getD 3 0).val
    if u ≥ 32768 then u - 65536 else u

/-- One observable operation performed by `handle_power_notify` on the
virtual gamepad (`press_button`, `release_button`, `update`) or on the
configured `update_callback`. -/
inductive GamepadOp where
  | press
  | release
  | update
  | callback (power : ℤ) (pressed : Bool)
deriving DecidableEq

/-- The mutable attributes of a `KickrController` object
(src/potato.py lines 48-63), minus the gamepad/callback handles whose
behaviour is captured by the emitted `GamepadOp` lists. -/
structure KickrState where
  ftp : ℚ
  device_name : String
  threshold : ℚ
  client : Option String
  power : ℤ
  button_pressed : Bool
deriving DecidableEq

/-- Python `str.upper()` (ASCII-faithful, as used on device names). -/
def upperStr (s : String) : String := ⟨s.data.map Char.toUpper⟩

/-- `KickrController.__init__` (src/potato.py lines 48-63): stores the
configuration (upper-casing the device name), no client, power 0,
button released. -/
def initState (ftp : ℚ) (device_name : String) (threshold : ℚ) : KickrState :=
  { ftp := ftp
    device_name := upperStr device_name
    threshold := threshold
    client := none
    power := 0
    button_pressed := false }

/-- `KickrController.handle_power_notify` (src/potato.py lines 95-121):
store the parsed power, compute `is_active = power >= threshold`, and on a
state change press or release the virtual A button, commit with
`gamepad.update()`, record the new button state and invoke the callback.
Returns the new state and the list of operations performed, in program order. -/
def handle_power_notify (s : KickrState) (data : List Byte) :
    KickrState × List GamepadOp :=
  let power := parse_cycling_power data
  let is_active : Bool := decide ((power : ℚ) ≥ s.threshold)
  if is_active && !s.button_pressed then
    ({ s with power := power, button_pressed := true },
      [.press, .update, .callback power true])
  else if !is_active && s.button_pressed then
    ({ s with power := power, button_pressed := false },
      [.release, .update, .callback power false])
  else
    ({ s with power := power }, [])

/-- Process a sequence of notifications, collecting each notification's
emitted operations. -/
def processAll (s : KickrState) :
    List (List Byte) → KickrState × List (List GamepadOp)
  | [] => (s, [])
  | d :: ds =>
    let r := handle_power_notify s d
    let rest := processAll r.1 ds
    (rest.1, r.2 :: rest.2)

/-- A 4-byte Cycling Power Measurement packet carrying instantaneous power
`w` (for `w < 128`, both power bytes fit without sign issues). -/
def pkt (w : Byte) : List Byte := [0, 0, w, 0]

/-- C1: with threshold 50 and the button initially released, the power
samples [40, 60, 60, 30, 70] emit exactly three controller commands: a
press after the second sample, a release after the fourth and a press
after the fifth; samples 1 and 3 emit nothing. -/
theorem threshold_sequence_emits_three_commands :
    (processAll (initState 230 "KICKR" 50)
        [pkt 40, pkt 60, pkt 60, pkt 30, pkt 70]).2 =
      [[],
       [.press, .update, .callback 60 true],
       [],
       [.release, .update, .callback 30 false],
       [.press, .update, .callback 70 true]] := by
  decide

/-- C2: processing the same power packet twice in succession emits no
operation on the second invocation, for every starting state and every
packet (idempotence of repeated identical samples). -/
theorem repeated_sample_is_idempotent (s : KickrState) (data : List Byte) :
    (handle_power_notify (handle_power_notify s data).1 data).2 = [] := by
  unfold handle_power_notify
  cases hb : decide ((parse_cycling_power data : ℚ) ≥ s.threshold) <;>
    cases hp : s.button_pressed <;>
    simp [hb, hp]

/-- Evaluation of the decoder on an arbitrary 4-byte packet. -/
lemma parse_four (a b c d : Byte) :
    parse_cycling_power [a, b, c, d] =
      Int.bmod ((c.val : ℤ) + 256 * (d.val : ℤ)) 65536 := by
  have hc : (c.val : ℤ) < 256 := by exact_mod_cast c.isLt
  have hd : (d.val : ℤ) < 256 := by exact_mod_cast d.isLt
  have hc' : (0 : ℤ) ≤ c.val := Int.ofNat_nonneg _
  have hd' : (0 : ℤ) ≤ d.val := Int.ofNat_nonneg _
  simp only [parse_cycling_power, Int.bmod, List.getD, List.get?, List.length_cons,
    List.length_nil, Option.getD_some]
  rw [if_neg (by omega)]
  have hu : (((c.val : ℤ) + 256 * (d.val : ℤ))) % (65536 : ℕ) =
      ((c.val : ℤ) + 256 * (d.val : ℤ)) := by
    apply Int.emod_eq_of_lt <;> push_cast <;> omega
  rw [hu]
  split <;> split <;> push_cast at * <;> omega

/-- C3: the decoder returns 0 on packets shorter than 4 bytes, otherwise
the signed little-endian 16-bit value of bytes 2-3 (the balanced residue
of `lo + 256 * hi` modulo 65536); a packet ending in bytes 0x64 0x00
decodes to 100 and one ending in 0xFF 0xFF decodes to -1. The Lean model
is a total function, matching the contract that no input raises. -/
theorem parse_cycling_power_spec :
    (∀ data : List Byte, data.length < 4 → parse_cycling_power data = 0) ∧
    (∀ data : List Byte, 4 ≤ data.length →
      parse_cycling_power data =
        Int.bmod ((data.getD 2 0).val + 256 * (data.getD 3 0).val) 65536) ∧
    (∀ a b : Byte, parse_cycling_power [a, b, 100, 0] = 100) ∧
    (∀ a b : Byte, parse_cycling_power [a, b, 255, 255] = -1) := by
  refine ⟨?_, ?_, ?_, ?_⟩
  · intro data h
    simp [parse_cycling_power, h]
  · intro data h
    have h2 : ((data.getD 2 0).val : ℤ) < 256 := by
      exact_mod_cast (data.getD 2 0).isLt
    have h3 : ((data.getD 3 0).val : ℤ) < 256 := by
      exact_mod_cast (data.getD 3 0).isLt
    have h2' : (0 : ℤ) ≤ (data.getD 2 0).val := Int.ofNat_nonneg _
    have h3' : (0 : ℤ) ≤ (data.getD 3 0).val := Int.ofNat_nonneg _
    simp only [parse_cycling_power, Int.bmod]
    rw [if_neg (by omega)]
    have hu : (((data.getD 2 0).val + 256 * (data.getD 3 0).val : ℤ)) % (65536 : ℕ) =
        ((data.getD 2 0).val + 256 * (data.getD 3 0).val : ℤ) := by
      apply Int.emod_eq_of_lt <;> push_cast <;> omega
    rw [hu]
    split <;> split <;> push_cast at * <;> omega
  · intro a b
    rw [parse_four]
    decide
  · intro a b
    rw [parse_four]
    decide

/-- Closed-instance witness for `parse_cycling_power_spec`. -/
theorem parse_cycling_power_spec_witness :
    ([] : List Byte).length < 4 ∧ parse_cycling_power [] = 0 ∧
    4 ≤ ([0, 0, 100, 0] : List Byte).length ∧
    parse_cycling_power [0, 0, 100, 0] = Int.bmod (100 + 256 * 0) 65536 :=
  ⟨by decide, parse_cycling_power_spec.1 [] (by decide), by decide,
    by
      have h := parse_cycling_power_spec.2.1 [0, 0, 100, 0] (by decide)
      simpa using h⟩

/-- A BLE device as reported by the scanner: an optional advertised name
and an address. -/
structure Device where
  name : Option String
  address : String
deriving DecidableEq

/-- Outcome of the asynchronous BLE environment for one session:
`scan = none` models the 10-second scan timing out, `scan = some ds` the
discovered device list; `transportOk` models whether `BleakClient.connect`
succeeds; `subscribeOk` whether `start_notify` succeeds. -/
structure Env where
  scan : Option (List Device)
  transportOk : Bool
  subscribeOk : Bool
deriving DecidableEq

/-- Observable session events, in program order: scanning, the operator
reports (`print` calls on the failure paths), the transport connect
attempt, the subscribe attempt, and entry into the indefinite
`while True: await asyncio.sleep(1)` keep-alive loop. -/
inductive Event where
  | scan
  | reportScanTimeout
  | reportNotFound
  | connectAttempt
  | reportConnectError
  | subscribe
  | reportSubscribeError
  | keepAlive
deriving DecidableEq

/-- `needle` is a prefix of `hay` (Python list/str prefix test). -/
def isPrefixList : List Char → List Char → Bool
  | [], _ => true
  | _ :: _, [] => false
  | a :: as, b :: bs => a == b && isPrefixList as bs

/-- Python's substring test `needle in hay`, on character lists. -/
def containsSub : List Char → List Char → Bool
  | needle, [] => isPrefixList needle []
  | needle, c :: cs => isPrefixList needle (c :: cs) || containsSub needle cs

/-- The device filter of `KickrController.connect` (src/potato.py lines
76-78): `d.name and self.device_name in d.name.upper()`. `filter` is the
already upper-cased `self.device_name`; a device matches when it has a
non-empty advertised name whose upper-casing contains `filter` as a
substring. -/
def deviceMatches (filter : String) (d : Device) : Bool :=
  match d.name with
  | none => false
  | some n => !(n == "") && containsSub filter.toList (upperStr n).toList

/-- `KickrController.connect` (src/potato.py lines 65-93): scan (with
timeout), pick the first discovered device whose name matches, store a
client for its address, attempt the transport connect. Returns the new
state, the boolean result, and the emitted events. -/
def connectOp (s : KickrState) (env : Env) : KickrState × Bool × List Event :=
  match env.scan with
  | none => (s, false, [.scan, .reportScanTimeout])
  | some devices =>
    match devices.find? (deviceMatches s.device_name) with
    | none => (s, false, [.scan, .reportNotFound])
    | some d =>
      let s1 := { s with client := some d.address }
      if env.transportOk then
        (s1, true, [.scan, .connectAttempt])
      else
        (s1, false, [.scan, .connectAttempt, .reportConnectError])

/-- `KickrController.start_notifications` (src/potato.py lines 123-131):
attempt to subscribe; on failure the exception is caught and reported,
and the method returns normally either way. -/
def start_notifications (s : KickrState) (env : Env) : KickrState × List Event :=
  if env.subscribeOk then
    (s, [.subscribe])
  else
    (s, [.subscribe, .reportSubscribeError])

/-- `KickrController.run` (src/potato.py lines 133-141): connect; on
failure return; otherwise subscribe (whatever the outcome) and enter the
indefinite keep-alive loop. -/
def run (s : KickrState) (env : Env) : KickrState × List Event :=
  match connectOp s env with
  | (s1, ok, evs) =>
    if ok then
      match start_notifications s1 env with
      | (s2, evs2) => (s2, evs ++ evs2 ++ [.keepAlive])
    else (s1, evs)

/-- C8: whenever `handle_power_notify` emits a press or a release, a
`gamepad.update()` commit follows it later in the same notification's
operation sequence, so no actuation is left uncommitted when the handler
returns. -/
theorem press_release_followed_by_commit (s : KickrState) (data : List Byte)
    (i : ℕ)
    (h : ((handle_power_notify s data).2)[i]? = some GamepadOp.press ∨
         ((handle_power_notify s data).2)[i]? = some GamepadOp.release) :
    ∃ j, i < j ∧ ((handle_power_notify s data).2)[j]? = some GamepadOp.update := by
  have hops : (handle_power_notify s data).2 = [] ∨
      ∃ c w q, (c = GamepadOp.press ∨ c = GamepadOp.release) ∧
        (handle_power_notify s data).2 =
          [c, GamepadOp.update, GamepadOp.callback w q] := by
    simp only [handle_power_notify]
    split
    · exact Or.inr ⟨_, _, _, Or.inl rfl, rfl⟩
    · split
      · exact Or.inr ⟨_, _, _, Or.inr rfl, rfl⟩
      · exact Or.inl rfl
  rcases hops with h0 | ⟨c, w, q, hc, h3⟩
  · rw [h0] at h
    simp at h
  · rw [h3] at h ⊢
    refine ⟨1, ?_, rfl⟩
    rcases i with _ | _ | i
    · exact Nat.one_pos
    · exfalso
      rcases hc with hc | hc <;> subst hc <;> simp at h
    · exfalso
      rcases hc with hc | hc <;> subst hc <;> rcases i with _ | i <;> simp at h

/-- Closed-instance witness for `press_release_followed_by_commit`. -/
theorem press_release_followed_by_commit_witness :
    (((handle_power_notify (initState 230 "KICKR" 50) (pkt 60)).2)[0]? =
        some GamepadOp.press ∨
      ((handle_power_notify (initState 230 "KICKR" 50) (pkt 60)).2)[0]? =
        some GamepadOp.release) ∧
    (∃ j, 0 < j ∧
      ((handle_power_notify (initState 230 "KICKR" 50) (pkt 60)).2)[j]? =
        some GamepadOp.update) :=
  ⟨Or.inl (by decide),
    press_release_followed_by_commit (initState 230 "KICKR" 50) (pkt 60) 0
      (Or.inl (by decide))⟩

/-- `start_notifications` never changes the controller state. -/
lemma start_notifications_state (s : KickrState) (env : Env) :
    (start_notifications s env).1 = s := by
  unfold start_notifications
  split <;> rfl

/-- `connect` leaves every attribute except `client` unchanged. -/
lemma connectOp_config (s : KickrState) (env : Env) :
    (connectOp s env).1.ftp = s.ftp ∧
    (connectOp s env).1.device_name = s.device_name ∧
    (connectOp s env).1.threshold = s.threshold := by
  rcases env with ⟨sc, t, sb⟩
  cases sc with
  | none => simp [connectOp]
  | some ds =>
    cases hf : List.find? (deviceMatches s.device_name) ds with
    | none => simp [connectOp, hf]
    | some d => cases t <;> simp [connectOp, hf]

/-- C9: the configuration attributes `ftp`, `device_name` and `threshold`
set by `__init__` are never written again: `handle_power_notify`,
`connect`, `start_notifications` and `run` all leave them unchanged. -/
theorem configuration_immutable :
    (∀ s data, (handle_power_notify s data).1.ftp = s.ftp ∧
      (handle_power_notify s data).1.device_name = s.device_name ∧
      (handle_power_notify s data).1.threshold = s.threshold) ∧
    (∀ s env, (connectOp s env).1.ftp = s.ftp ∧
      (connectOp s env).1.device_name = s.device_name ∧
      (connectOp s env).1.threshold = s.threshold) ∧
    (∀ s env, (start_notifications s env).1.ftp = s.ftp ∧
      (start_notifications s env).1.device_name = s.device_name ∧
      (start_notifications s env).1.threshold = s.threshold) ∧
    (∀ s env, (run s env).1.ftp = s.ftp ∧
      (run s env).1.device_name = s.device_name ∧
      (run s env).1.threshold = s.threshold) := by
  refine ⟨?_, connectOp_config, ?_, ?_⟩
  · intro s data
    simp only [handle_power_notify]
    split
    · exact ⟨rfl, rfl, rfl⟩
    · split <;> exact ⟨rfl, rfl, rfl⟩
  · intro s env
    rw [start_notifications_state]
    exact ⟨rfl, rfl, rfl⟩
  · intro s env
    have hcfg := connectOp_config s env
    unfold run
    rcases hc : connectOp s env with ⟨s1, ok, evs⟩
    rw [hc] at hcfg
    cases ok with
    | false => simpa using hcfg
    | true => simpa [start_notifications_state] using hcfg

/-- When `connect` fails, `run` performs nothing further: its event trace
is exactly the connect trace. -/
lemma run_of_connect_false (s : KickrState) (env : Env)
    (h : (connectOp s env).2.1 = false) :
    (run s env).2 = (connectOp s env).2.2 := by
  unfold run
  rcases hc : connectOp s env with ⟨s1, ok, evs⟩
  rw [hc] at h
  simp only at h
  subst h
  simp

/-- C6: if `connect` succeeded but the subscription fails, the failure is
reported and `run` still enters the indefinite keep-alive loop (the last
event of the trace) instead of returning early. -/
theorem subscribe_failure_reported_and_session_stalls
    (s : KickrState) (env : Env)
    (hc : (connectOp s env).2.1 = true) (hs : env.subscribeOk = false) :
    Event.reportSubscribeError ∈ (run s env).2 ∧
    (run s env).2.getLast? = some Event.keepAlive := by
  unfold run
  rcases h : connectOp s env with ⟨s1, ok, evs⟩
  rw [h] at hc
  simp only at hc
  subst hc
  simp only [start_notifications, hs, Bool.false_eq_true, if_false, if_true]
  constructor
  · simp
  · rw [List.getLast?_append_cons]
    rfl

/-- Closed-instance witness for
`subscribe_failure_reported_and_session_stalls`. -/
theorem subscribe_failure_stalls_witness :
    (connectOp (initState 230 "KICKR" 50)
        ⟨some [⟨some "WAHOO KICKR CORE", "AD"⟩], true, false⟩).2.1 = true ∧
    Event.reportSubscribeError ∈
      (run (initState 230 "KICKR" 50)
        ⟨some [⟨some "WAHOO KICKR CORE", "AD"⟩], true, false⟩).2 ∧
    (run (initState 230 "KICKR" 50)
        ⟨some [⟨some "WAHOO KICKR CORE", "AD"⟩], true, false⟩).2.getLast? =
      some Event.keepAlive :=
  ⟨by decide,
    subscribe_failure_reported_and_session_stalls (initState 230 "KICKR" 50)
      ⟨some [⟨some "WAHOO KICKR CORE", "AD"⟩], true, false⟩ (by decide) rfl⟩

/-- C7: on scan timeout, no matching device name, or a transport connect
error, `connect` reports the failure and returns `false`, and `run` then
returns without a subscribe attempt; the whole trace contains exactly one
scan and at most one connect attempt, so nothing is retried. -/
theorem connect_failure_terminates_without_retry
    (s : KickrState) (env : Env)
    (h : env.scan = none ∨
      (∃ ds, env.scan = some ds ∧
        ∀ d ∈ ds, deviceMatches s.device_name d = false) ∨
      env.transportOk = false) :
    (connectOp s env).2.1 = false ∧
    (∃ e ∈ (connectOp s env).2.2, e = Event.reportScanTimeout ∨
      e = Event.reportNotFound ∨ e = Event.reportConnectError) ∧
    Event.subscribe ∉ (run s env).2 ∧
    (run s env).2.count Event.scan = 1 ∧
    (run s env).2.count Event.connectAttempt ≤ 1 := by
  have htrace : (connectOp s env).2.1 = false ∧
      ((connectOp s env).2.2 = [.scan, .reportScanTimeout] ∨
       (connectOp s env).2.2 = [.scan, .reportNotFound] ∨
       (connectOp s env).2.2 = [.scan, .connectAttempt, .reportConnectError]) := by
    rcases env with ⟨sc, t, sb⟩
    rcases h with h | ⟨ds, hds, hall⟩ | h
    · simp only at h
      subst h
      exact ⟨rfl, Or.inl rfl⟩
    · simp only at hds
      subst hds
      have hf : ds.find? (deviceMatches s.device_name) = none :=
        List.find?_eq_none.mpr (fun d hd => by simp [hall d hd])
      simp [connectOp, hf]
    · simp only at h
      subst h
      cases sc with
      | none => exact ⟨rfl, Or.inl rfl⟩
      | some ds =>
        cases hf : ds.find? (deviceMatches s.device_name) with
        | none => simp [connectOp, hf]
        | some d => simp [connectOp, hf]
  obtain ⟨hfalse, hforms⟩ := htrace
  have hrun := run_of_connect_false s env hfalse
  rw [hrun]
  refine ⟨hfalse, ?_, ?_, ?_, ?_⟩ <;>
    rcases hforms with h3 | h3 | h3 <;> rw [h3] <;> decide

/-- Closed-instance witness for `connect_failure_terminates_without_retry`. -/
theorem connect_failure_no_retry_witness :
    ((⟨none, true, true⟩ : Env).scan = none ∨
      (∃ ds, (⟨none, true, true⟩ : Env).scan = some ds ∧
        ∀ d ∈ ds, deviceMatches (initState 230 "KICKR" 50).device_name d = false) ∨
      (⟨none, true, true⟩ : Env).transportOk = false) ∧
    (connectOp (initState 230 "KICKR" 50) ⟨none, true, true⟩).2.1 = false ∧
    Event.subscribe ∉ (run (initState 230 "KICKR" 50) ⟨none, true, true⟩).2 :=
  ⟨Or.inl rfl,
    (connect_failure_terminates_without_retry (initState 230 "KICKR" 50)
      ⟨none, true, true⟩ (Or.inl rfl)).1,
    (connect_failure_terminates_without_retry (initState 230 "KICKR" 50)
      ⟨none, true, true⟩ (Or.inl rfl)).2.2.1⟩

/-- Modelled from the spec: the config-file variant of the program keeps a
list of device-name filters ("device name list"); a discovered device
matches when any single filter matches it, where single-filter matching is
`deviceMatches`, the predicate of `connect` in src/potato.py (which holds
exactly one configured filter, the singleton case of this definition). -/
def matchesAnyFilter (filters : List String) (d : Device) : Bool :=
  filters.any fun f => deviceMatches (upperStr f) d

/-- C5: a discovered device matches if and only if it has a non-empty
advertised name containing some configured filter case-insensitively
(both sides upper-cased); "WAHOO KICKR CORE" matches the filters
["KICKR", "WAHOO"], "TACX NEO" matches neither, matching ignores case,
and when no discovered device matches, `connect` reports not-found and
returns false. -/
theorem device_name_matching :
    (∀ filters d, matchesAnyFilter filters d = true ↔
      ∃ n, d.name = some n ∧ n ≠ "" ∧ ∃ f ∈ filters,
        containsSub (upperStr f).toList (upperStr n).toList = true) ∧
    matchesAnyFilter ["KICKR", "WAHOO"] ⟨some "WAHOO KICKR CORE", "A"⟩ = true ∧
    matchesAnyFilter ["KICKR", "WAHOO"] ⟨some "TACX NEO", "A"⟩ = false ∧
    deviceMatches (upperStr "kickr") ⟨some "Wahoo Kickr Core", "A"⟩ = true ∧
    (∀ s env ds, env.scan = some ds →
      (∀ d ∈ ds, deviceMatches s.device_name d = false) →
      (connectOp s env).2.1 = false ∧
        Event.reportNotFound ∈ (connectOp s env).2.2) := by
  refine ⟨?_, by decide, by decide, by decide, ?_⟩
  · intro filters d
    rcases d with ⟨dn, da⟩
    cases dn with
    | none =>
      simp [matchesAnyFilter, deviceMatches]
    | some n =>
      simp only [matchesAnyFilter, List.any_eq_true, deviceMatches,
        Bool.and_eq_true, Bool.not_eq_true', beq_eq_false_iff_ne]
      constructor
      · rintro ⟨f, hf, hne, hsub⟩
        exact ⟨n, rfl, hne, f, hf, hsub⟩
      · rintro ⟨n', hn', hne, f, hf, hsub⟩
        cases hn'
        exact ⟨f, hf, hne, hsub⟩
  · intro s env ds hsc hall
    rcases env with ⟨sc, t, sb⟩
    simp only at hsc
    subst hsc
    have hf : List.find? (deviceMatches s.device_name) ds = none :=
      List.find?_eq_none.mpr (fun d hd => by simp [hall d hd])
    simp [connectOp, hf]

/-- Closed-instance witness for `device_name_matching`. -/
theorem device_name_matching_witness :
    ((⟨some [⟨some "TACX NEO", "B"⟩], true, true⟩ : Env).scan =
        some [⟨some "TACX NEO", "B"⟩]) ∧
    (∀ d ∈ [(⟨some "TACX NEO", "B"⟩ : Device)],
      deviceMatches (initState 230 "KICKR" 50).device_name d = false) ∧
    (connectOp (initState 230 "KICKR" 50)
      ⟨some [⟨some "TACX NEO", "B"⟩], true, true⟩).2.1 = false :=
  ⟨rfl, by decide,
    (device_name_matching.2.2.2.2 (initState 230 "KICKR" 50)
      ⟨some [⟨some "TACX NEO", "B"⟩], true, true⟩ [⟨some "TACX NEO", "B"⟩]
      rfl (by decide)).1⟩

/-- The button-state invariant maintained by `handle_power_notify`: the
stored flag records whether the stored power reaches the threshold. -/
def buttonInvariant (s : KickrState) : Prop :=
  s.button_pressed = decide ((s.power : ℚ) ≥ s.threshold)

/-- C10 counterexample: with threshold 0 (accepted by the CLI, whose
`--threshold` is an arbitrary float), the freshly constructed state has
the button released although its stored power 0 already reaches the
threshold, so the claimed invariant fails at the initial state. -/
theorem initial_state_invariant_fails_at_threshold_zero :
    (initState 230 "KICKR" 0).button_pressed = false ∧
    ((initState 230 "KICKR" 0).power : ℚ) ≥ (initState 230 "KICKR" 0).threshold := by
  constructor
  · rfl
  · norm_num [initState]

/-- C10 (amended): after every invocation of `handle_power_notify` the
stored power is the decoded value of the buffer and the button flag
equals (power >= threshold); the invariant also holds at the freshly
constructed state whenever the configured threshold is positive, and is
therefore preserved along every notification sequence. -/
theorem handler_establishes_button_invariant :
    (∀ s data, (handle_power_notify s data).1.power = parse_cycling_power data ∧
      buttonInvariant (handle_power_notify s data).1) ∧
    (∀ ftp threshold : ℚ, ∀ dname : String, 0 < threshold →
      buttonInvariant (initState ftp dname threshold)) := by
  constructor
  · intro s data
    by_cases hb : ((parse_cycling_power data : ℚ) ≥ s.threshold)
    all_goals cases hp : s.button_pressed <;>
      simp [handle_power_notify, buttonInvariant, hb, hp]
  · intro ftp threshold dname ht
    simp only [buttonInvariant, initState, Int.cast_zero]
    rw [decide_eq_false] <;> simp
    linarith

/-- Closed-instance witness for `handler_establishes_button_invariant`. -/
theorem handler_button_invariant_witness :
    (0 : ℚ) < 50 ∧ buttonInvariant (initState 230 "X" 50) :=
  ⟨by norm_num, handler_establishes_button_invariant.2 230 50 "X" (by norm_num)⟩

/-- Modelled from the spec: the linear trigger mode of the earlier
revision of the program (the docstring still describes feeding power
"into the right trigger"; the revision in src/potato.py presses the A
button instead, so the linear mapping itself is absent from src).
Per the spec: if P < T the ratio is 0.0, otherwise min (P / F) 1.0. -/
def linearRatio (P F T : ℚ) : ℚ := if P < T then 0 else min (P / F) 1

/-- Modelled from the spec: the ratio is scaled to the integer actuation
range [0, 255] of the analog trigger axis. -/
def linearTrigger (P F T : ℚ) : ℤ := ⌊linearRatio P F T * 255⌋

/-- C4: in linear trigger mode the ratio is 0 below the threshold and
min(P/F, 1) otherwise, and the scaled trigger value always lies in
[0, 255] (for a positive FTP and nonnegative threshold); with FTP 250 and
threshold 10: P=5 gives 0, P=125 gives 1/2, P=300 clamps to 1, P=9
gives 0. -/
theorem linear_trigger_mode_spec :
    (∀ P F T : ℚ, P < T → linearRatio P F T = 0) ∧
    (∀ P F T : ℚ, ¬P < T → linearRatio P F T = min (P / F) 1) ∧
    (∀ P F T : ℚ, 0 < F → 0 ≤ T →
      0 ≤ linearTrigger P F T ∧ linearTrigger P F T ≤ 255) ∧
    linearRatio 5 250 10 = 0 ∧
    linearRatio 125 250 10 = 1 / 2 ∧
    linearRatio 300 250 10 = 1 ∧
    linearRatio 9 250 10 = 0 := by
  refine ⟨?_, ?_, ?_, by norm_num [linearRatio], by norm_num [linearRatio],
    by norm_num [linearRatio], by norm_num [linearRatio]⟩
  · intro P F T h
    simp [linearRatio, h]
  · intro P F T h
    simp [linearRatio, h]
  · intro P F T hF hT
    unfold linearTrigger linearRatio
    split
    · norm_num
    · rename_i hPT
      have hP : 0 ≤ P := le_trans hT (not_lt.mp hPT)
      have h0 : 0 ≤ min (P / F) 1 := le_min (div_nonneg hP hF.le) zero_le_one
      have h1 : min (P / F) 1 ≤ 1 := min_le_right _ _
      constructor
      · exact Int.floor_nonneg.mpr (by nlinarith)
      · calc ⌊min (P / F) 1 * 255⌋ ≤ ⌊(255 : ℚ)⌋ :=
              Int.floor_le_floor (by nlinarith)
          _ = 255 := by norm_num

/-- Closed-instance witness for `linear_trigger_mode_spec`. -/
theorem linear_trigger_mode_witness :
    (5 : ℚ) < 10 ∧ linearRatio 5 250 10 = 0 :=
  ⟨by norm_num, linear_trigger_mode_spec.1 5 250 10 (by norm_num)⟩

end Potato
